import Mathlib

/-!
Shallow embedding of the upload/download core of the `file-uploader`
repository: the upload request validation, the presigned-POST credential
issuance (`src/lib/s3.ts`), the two revisions of the upload route handler
(`src/app/api/upload/route.ts` and its revised copy), the download route
handler (`src/app/api/download/route.ts`), and the client-side upload hook
(`useFileUploader`): its transfer settle logic, its `uploadFile` entry
point and its `reset`.

JavaScript conventions used throughout: an absent JSON field destructures
to a falsy value, modelled as `""` for strings and `0` for sizes; a failed
`await request.json()` is modelled by passing `none` for the parsed body;
every network call is modelled by passing its outcome as an explicit
argument.
-/

/-- Parsed JSON body of an upload request: `{fileName, fileType, fileSize}`. -/
structure UploadBody where
  fileName : String
  fileType : String
  fileSize : Nat
deriving DecidableEq, Repr

/-- The `allowedFileTypes` configuration value: either a list of MIME type
strings or the wildcard marker, the literal string value `"*"`. -/
inductive AllowedTypes where
  | list (types : List String)
  | wildcard
deriving DecidableEq, Repr

/-- Boolean substring containment on char lists, the semantics of
JavaScript `String.prototype.includes`: `l` contains `sub` iff `sub` is a
prefix of some suffix of `l` (the empty string is contained in every
string). -/
def containsSub (l sub : List Char) : Bool :=
  match l with
  | [] => sub.isEmpty
  | _ :: t => sub.isPrefixOf l || containsSub t sub

/-- JavaScript dispatch of `.includes(fileType)` on a value typed
`string[] | '*'`: an array checks element membership, the wildcard string
checks substring containment in `"*"`. This is the check performed by
`handleUpload` in `src/app/api/upload/route.ts`, which has no special case
for the wildcard marker. -/
def AllowedTypes.jsIncludes : AllowedTypes → String → Bool
  | .list ts, ft => ts.contains ft
  | .wildcard, ft => containsSub "*".data ft.data

/-- The wildcard-aware rejection test
`allowedFileTypes !== '*' && !allowedFileTypes.includes(fileType)` used by
the revised route handler and by the client hook. -/
def typeRejected : AllowedTypes → String → Bool
  | .wildcard, _ => false
  | .list ts, ft => !ts.contains ft

/-- JavaScript `Math.round (a / b)` for a natural `a` and positive `b`:
round half up, i.e. `⌊a / b + 1 / 2⌋`. -/
def jsRoundDiv (a b : Nat) : Nat := (2 * a + b) / (2 * b)

/-- The too-large error message built by the client hook:
`File too large (max ${Math.round(maxFileSize / (1024 * 1024))}MB)`. -/
def tooLargeMessage (maxFileSize : Nat) : String :=
  "File too large (max " ++ toString (jsRoundDiv maxFileSize (1024 * 1024)) ++ "MB)"

/-- The unsupported-type error message built by the client hook:
`File type not supported. Allowed types: ${allowedFileTypes.join(', ')}`.
The `.join` is only ever evaluated on the array form (the wildcard form
skips the throw), so the wildcard case is arbitrary and unobservable. -/
def typeNotSupportedMessage : AllowedTypes → String
  | .list ts => "File type not supported. Allowed types: " ++ String.intercalate ", " ts
  | .wildcard => ""

/-- The synchronous validation prefix of the client hook's `uploadFile`
(`useFileUploader`): returns `some errorMessage` when one of its two
checks throws, `none` when validation passes. -/
def clientValidate (allowed : AllowedTypes) (maxFileSize : Nat) (f : UploadBody) : Option String :=
  if typeRejected allowed f.fileType then
    some (typeNotSupportedMessage allowed)
  else if f.fileSize > maxFileSize then
    some (tooLargeMessage maxFileSize)
  else
    none

/-- One policy condition embedded in a presigned POST request. -/
inductive S3Condition where
  | contentLengthRange (low high : Nat)
  | startsWithField (field : String) (value : String)
deriving DecidableEq, Repr

/-- The request `createPresignedUploadUrl` (`src/lib/s3.ts`) assembles for
the storage backend's signing call: object key, policy conditions, the
pinned `Content-Type` field and the expiry in seconds. -/
structure PresignedPostArgs where
  key : String
  conditions : List S3Condition
  contentTypeField : String
  expires : Nat
deriving DecidableEq, Repr

/-- Embedding of `createPresignedUploadUrl` from `src/lib/s3.ts`: mints the
key `uploads/<uuid>/<fileName>`, starts the conditions with the
content-length range `[0, maxFileSize]`, pushes the
`['starts-with', '$Content-Type', 'audio/']` condition exactly when the
declared type starts with `audio/`, pins `Content-Type` to the declared
type and sets a 600 second expiry. The fresh UUID is an argument. -/
def createPresignedUploadUrl (fileType fileName : String) (maxFileSize : Nat)
    (uuid : String) : PresignedPostArgs :=
  { key := "uploads/" ++ uuid ++ "/" ++ fileName
    conditions := [S3Condition.contentLengthRange 0 maxFileSize] ++
      (if fileType.startsWith "audio/" then
        [S3Condition.startsWithField "$Content-Type" "audio/"]
      else [])
    contentTypeField := fileType
    expires := 600 }

/-- The `{url, fields, key}` value returned to the client on successful
issuance. -/
structure SignedPost where
  url : String
  fields : List (String × String)
  key : String
deriving DecidableEq, Repr

/-- Outcome of the storage backend's signing call inside the route
handlers: either the signed post data or a thrown error. -/
inductive SignerOutcome where
  | ok (post : SignedPost)
  | error
deriving DecidableEq, Repr

/-- A response of the upload route: `NextResponse.json(presignedPost)`
(status 200) or `new NextResponse(message, {status})`. -/
inductive UploadResult where
  | success (post : SignedPost)
  | failure (status : Nat) (message : String)
deriving DecidableEq, Repr

/-- HTTP status of an upload route response. -/
def UploadResult.status : UploadResult → Nat
  | .success _ => 200
  | .failure s _ => s

namespace UploadRouteV1

/-- Configuration taken by `handleUpload` in `src/app/api/upload/route.ts`:
`{allowedFileTypes: string[] | '*', maxFileSize: number, s3Client?}`. -/
structure Config where
  allowedFileTypes : AllowedTypes
  maxFileSize : Nat
  hasS3Client : Bool
deriving DecidableEq, Repr

/-- Embedding of `handleUpload` from `src/app/api/upload/route.ts`.
`body` is the result of `await request.json()` (`none` when the body is
not valid JSON: that rejection propagates to the outer catch, which
returns status 500); `signer` is the outcome of the
`createPresignedUploadUrl` call; the returned flag records whether that
signing call was reached. -/
def handleUpload (body : Option UploadBody) (config : Config)
    (signer : SignerOutcome) : UploadResult × Bool :=
  match body with
  | none => (.failure 500 "Internal Server Error", false)
  | some b =>
    if b.fileName == "" || b.fileType == "" || b.fileSize == 0 then
      (.failure 400 "Missing required fields", false)
    else if !config.allowedFileTypes.jsIncludes b.fileType then
      (.failure 400 "File type not allowed", false)
    else if b.fileSize > config.maxFileSize then
      (.failure 400 "File too large", false)
    else if !config.hasS3Client then
      (.failure 400 "Missing s3 client", false)
    else
      match signer with
      | .ok post => (.success post, true)
      | .error => (.failure 500 "Internal Server Error", true)

end UploadRouteV1

namespace UploadRouteV2

/-- Configuration taken by the revised `handleUpload`
(`src/unnamed/part_002`): `{allowedFileTypes: string[] | '*', maxFileSize}`. -/
structure Config where
  allowedFileTypes : AllowedTypes
  maxFileSize : Nat
deriving DecidableEq, Repr

/-- Embedding of the revised `handleUpload` (`src/unnamed/part_002`): the
JSON parse is wrapped in its own try/catch returning status 400, and the
type check is skipped when `allowedFileTypes` is the wildcard marker. -/
def handleUpload (body : Option UploadBody) (config : Config)
    (signer : SignerOutcome) : UploadResult × Bool :=
  match body with
  | none => (.failure 400 "Invalid JSON in request body", false)
  | some b =>
    if b.fileName == "" || b.fileType == "" || b.fileSize == 0 then
      (.failure 400 "Missing required fields", false)
    else if typeRejected config.allowedFileTypes b.fileType then
      (.failure 400 "File type not allowed", false)
    else if b.fileSize > config.maxFileSize then
      (.failure 400 "File too large", false)
    else
      match signer with
      | .ok post => (.success post, true)
      | .error => (.failure 500 "Internal Server Error", true)

end UploadRouteV2

/-- Terminal XMLHttpRequest event of the transfer in `uploadToS3`: a
`load` event carrying the final HTTP status, or an `error` event
(transport-level failure). -/
inductive XhrOutcome where
  | loaded (status : Nat)
  | networkError
deriving DecidableEq, Repr

/-- Settlement of the promise returned by `uploadToS3`. -/
inductive TransferResult where
  | resolved
  | rejectedTransferError (message : String)
deriving DecidableEq, Repr

/-- Embedding of the settlement logic of `uploadToS3` (identical in the
`useFileUploader` hook and the `FileUploader` component): the promise
resolves on a `load` event with status 204 and rejects with
`Error('Upload failed')` on any other status and on an `error` event. -/
def uploadToS3 : XhrOutcome → TransferResult
  | .loaded status => if status == 204 then .resolved else .rejectedTransferError "Upload failed"
  | .networkError => .rejectedTransferError "Upload failed"

/-- Mutable state of the `useFileUploader` hook: the `isUploading` React
state, the `uploadAttempted` ref, and the number of upload attempts whose
awaited network chain is still pending (the attempts' closures keep
running whatever the flags say). State updates are modelled as taking
effect immediately. -/
structure HookState where
  isUploading : Bool
  uploadAttempted : Bool
  inflight : Nat
deriving DecidableEq, Repr

/-- Observable effects a step of the hook can emit. -/
inductive HookEffect where
  | credentialRequest
  | completeCallback (key : String)
  | errorCallback (message : String)
deriving DecidableEq, Repr

/-- The spec's `Idle` state of the orchestrator: not uploading and no
attempt pending from the hook's point of view (the flags cleared). -/
def HookState.isIdle (s : HookState) : Prop :=
  s.isUploading = false ∧ s.uploadAttempted = false

/-- Embedding of the synchronous prefix of the hook's `uploadFile` entry
point, up to its first `await`: if `isUploading` the call returns at once
(no state change, no effect); otherwise it sets `uploadAttempted` and
`isUploading`, validates, and on a validation throw the catch invokes the
error callback and the finally clears both flags, while on success the
credential request is issued and the attempt becomes pending. -/
def uploadFile (f : UploadBody) (allowed : AllowedTypes) (maxFileSize : Nat)
    (s : HookState) : HookState × List HookEffect :=
  if s.isUploading then
    (s, [])
  else
    match clientValidate allowed maxFileSize f with
    | some msg =>
      ({ isUploading := false, uploadAttempted := false, inflight := s.inflight },
        [HookEffect.errorCallback msg])
    | none =>
      ({ isUploading := true, uploadAttempted := true, inflight := s.inflight + 1 },
        [HookEffect.credentialRequest])

/-- Settlement of one pending attempt's network chain (credential request
followed by transfer): `ok key` stands for both resolving. -/
inductive AttemptOutcome where
  | ok (key : String)
  | error (message : String)
deriving DecidableEq, Repr

/-- Embedding of the continuation of `uploadFile` after its awaited
network chain settles: the try block invokes `onUploadComplete` with the
key, the catch invokes `onUploadError`, and the finally clears
`isUploading` and `uploadAttempted` — unconditionally, with no check that
the attempt is still wanted. -/
def uploadFileSettle (outcome : AttemptOutcome) (s : HookState) :
    HookState × List HookEffect :=
  match s.inflight with
  | 0 => (s, [])
  | n + 1 =>
    ({ isUploading := false, uploadAttempted := false, inflight := n },
      [match outcome with
       | .ok key => HookEffect.completeCallback key
       | .error msg => HookEffect.errorCallback msg])

/-- Embedding of the hook's `reset`: sets `uploadAttempted.current = false`
and `setIsUploading(false)`; nothing else — in particular it does not
touch a pending attempt's closure. -/
def reset (s : HookState) : HookState × List HookEffect :=
  ({ isUploading := false, uploadAttempted := false, inflight := s.inflight }, [])

/-- Outcome of the `fetch` against the signed read URL inside
`getFileByS3Key`: a response with its `ok` flag, status text, optional
`content-type` header and body bytes, or a transport failure. -/
inductive FetchOutcome where
  | response (ok : Bool) (statusText : String) (contentType : Option String) (bytes : List Nat)
  | networkError (message : String)
deriving DecidableEq, Repr

/-- The value `getFileByS3Key` returns: the buffered body, its length and
the optional content type. The buffer is a JavaScript `Buffer` reference;
`none` models `null`/`undefined` (the only falsy possibilities for it),
while `some bytes` — empty or not — is a real object and truthy. -/
structure S3File where
  buffer : Option (List Nat)
  size : Nat
  contentType : Option String
deriving DecidableEq, Repr

/-- Embedding of `getFileByS3Key` from `src/lib/s3.ts`: throws when the
key is empty, throws on a non-`ok` response or a transport failure, and
otherwise buffers the whole body, so the returned `buffer` is always a
real `Buffer` object (never `null`/`undefined`), with `size` its length.
The signed-URL indirection carries no data and is not modelled. -/
def getFileByS3Key (s3Key : String) (fetched : FetchOutcome) : Except String S3File :=
  if s3Key == "" then
    .error "S3 key is required"
  else
    match fetched with
    | .networkError msg => .error msg
    | .response ok statusText ct bytes =>
      if !ok then
        .error ("Failed to fetch file from S3: " ++ statusText)
      else
        .ok { buffer := some bytes, size := bytes.length, contentType := ct }

/-- Parsed JSON body of a download request; a missing `s3Key` destructures
to a falsy value, modelled as `""`. The pass-through `metadata` field is
echoed verbatim and not modelled. -/
structure DownloadBody where
  s3Key : String
deriving DecidableEq, Repr

/-- A response of the download route: `NextResponse.json({buffer, size,
contentType, metadata})` with status 200 (the buffer field carrying the
bytes that `toString('base64')` serialises), or a JSON error with a
status. -/
inductive DownloadResponse where
  | success (buffer : List Nat) (size : Nat) (contentType : Option String)
  | jsonError (status : Nat) (message : String)
deriving DecidableEq, Repr

/-- HTTP status of a download route response. -/
def DownloadResponse.status : DownloadResponse → Nat
  | .success _ _ _ => 200
  | .jsonError s _ => s

/-- Embedding of `handleDownload` from `src/app/api/download/route.ts`.
`body` is the result of `await req.json()` (`none` when it throws, which
the outer catch turns into a 500); a falsy `s3Key` yields 400, a missing
`options.s3Client` yields 400, an error thrown by `getFileByS3Key` is
caught and yields 500, and the `if (!buffer)` guard takes the 404 branch
exactly when the returned buffer is `null`/`undefined`. -/
def handleDownload (body : Option DownloadBody) (hasS3Client : Bool)
    (fetched : FetchOutcome) : DownloadResponse :=
  match body with
  | none => .jsonError 500 "Unknown error"
  | some b =>
    if b.s3Key == "" then
      .jsonError 400 "Missing S3 key"
    else if !hasS3Client then
      .jsonError 400 "Missing s3 client"
    else
      match getFileByS3Key b.s3Key fetched with
      | .error msg => .jsonError 500 msg
      | .ok file =>
        match file.buffer with
        | none => .jsonError 404 "File not found"
        | some bytes => .success bytes file.size file.contentType

/-!
Theorems settling the claims.
-/

/-- C1: the claim fails on `src/app/api/upload/route.ts`. Its
`handleUpload` accepts the wildcard marker in its config type yet performs
no wildcard special-case: `.includes` on the string `"*"` is substring
containment, so under a wildcard policy it rejects the fileType
`audio/mpeg` with the unsupported-type response (and never reaches the
signing call), while the revised handler of `src/unnamed/part_002`
accepts the identical request. -/
theorem c1_wildcard_rejected_by_route_v1 :
    UploadRouteV1.handleUpload (some ⟨"song.mp3", "audio/mpeg", 1⟩)
      ⟨.wildcard, 5242880, true⟩ (.ok ⟨"https://bucket.example", [], "k"⟩) =
      (.failure 400 "File type not allowed", false) ∧
    UploadRouteV2.handleUpload (some ⟨"song.mp3", "audio/mpeg", 1⟩)
      ⟨.wildcard, 5242880⟩ (.ok ⟨"https://bucket.example", [], "k"⟩) =
      (.success ⟨"https://bucket.example", [], "k"⟩, true) := by
  decide

/-- C2 counterexample: a concrete trace of the hook. `uploadFile` from the
initial state starts an attempt; `reset` mid-flight clears the flags
(landing in Idle) but leaves the attempt pending; when the attempt's
network chain settles, the completion callback fires all the same — so
the claim that neither callback is invoked for a reset attempt is false. -/
theorem c2_reset_counterexample :
    uploadFile ⟨"song.mp3", "audio/mpeg", 100⟩ .wildcard 5242880 ⟨false, false, 0⟩ =
      (⟨true, true, 1⟩, [HookEffect.credentialRequest]) ∧
    reset ⟨true, true, 1⟩ = (⟨false, false, 1⟩, []) ∧
    HookState.isIdle ⟨false, false, 1⟩ ∧
    uploadFileSettle (.ok "uploads/u/song.mp3") ⟨false, false, 1⟩ =
      (⟨false, false, 0⟩, [HookEffect.completeCallback "uploads/u/song.mp3"]) := by
  refine ⟨by decide, by decide, ⟨rfl, rfl⟩, by decide⟩

/-- C2 amended: `reset` fires no callbacks itself, always lands in Idle and
is idempotent; but it does not cancel a pending attempt — if an attempt is
in flight when `reset` runs, that attempt's completion or error callback
still fires when it settles. -/
theorem c2_reset_amended (s : HookState) (outcome : AttemptOutcome) :
    (reset s).2 = [] ∧
    (reset s).1.isIdle ∧
    reset (reset s).1 = reset s ∧
    (0 < s.inflight → (uploadFileSettle outcome (reset s).1).2 ≠ []) := by
  refine ⟨rfl, ⟨rfl, rfl⟩, rfl, ?_⟩
  intro h
  cases hn : s.inflight with
  | zero => omega
  | succ n => cases outcome <;> simp [reset, uploadFileSettle, hn]

/-- C2 amended, witness at a concrete mid-flight state. -/
theorem c2_reset_amended_witness :
    (reset ⟨true, true, 1⟩).2 = [] ∧
    (reset ⟨true, true, 1⟩).1.isIdle ∧
    reset (reset ⟨true, true, 1⟩).1 = reset ⟨true, true, 1⟩ ∧
    (uploadFileSettle (.ok "uploads/w/a.mp3") (reset ⟨true, true, 1⟩).1).2 ≠ [] :=
  ⟨(c2_reset_amended ⟨true, true, 1⟩ (.ok "uploads/w/a.mp3")).1,
   (c2_reset_amended ⟨true, true, 1⟩ (.ok "uploads/w/a.mp3")).2.1,
   (c2_reset_amended ⟨true, true, 1⟩ (.ok "uploads/w/a.mp3")).2.2.1,
   (c2_reset_amended ⟨true, true, 1⟩ (.ok "uploads/w/a.mp3")).2.2.2 (by decide)⟩

/-- C3: the claim fails on `src/app/api/upload/route.ts`. There
`await request.json()` is not guarded, so a malformed body propagates to
the outer catch and the endpoint answers 500, a server error; the revised
handler of `src/unnamed/part_002` guards the parse and answers 400. -/
theorem c3_malformed_json_500_on_route_v1 :
    UploadRouteV1.handleUpload none ⟨.list ["audio/mpeg"], 5242880, true⟩
      (.ok ⟨"https://bucket.example", [], "k"⟩) =
      (.failure 500 "Internal Server Error", false) ∧
    UploadRouteV2.handleUpload none ⟨.list ["audio/mpeg"], 5242880⟩
      (.ok ⟨"https://bucket.example", [], "k"⟩) =
      (.failure 400 "Invalid JSON in request body", false) := by
  decide

/-- C4 counterexample: with maxSizeBytes 1572864 (1.5 · 2^20) the code's
too-large message reports 2MB (`Math.round`), while floor(1572864 /
1048576) = 1 — so the claim that the message carries the floored megabyte
limit is false. -/
theorem c4_round_not_floor_counterexample :
    clientValidate .wildcard 1572864 ⟨"a.mp3", "audio/mpeg", 1572865⟩ =
      some "File too large (max 2MB)" ∧
    1572864 / 1048576 = 1 ∧
    "File too large (max 2MB)" ≠ "File too large (max 1MB)" := by
  decide

/-- C4 amended: whenever the request passes the type check and fileSize
exceeds maxSizeBytes, validation rejects with the too-large message whose
megabyte figure is JavaScript `Math.round(M / 1048576)`, i.e.
`⌊(M + 524288) / 1048576⌋` — round half up, not floor. -/
theorem c4_too_large_rounded (allowed : AllowedTypes) (maxFileSize : Nat)
    (f : UploadBody)
    (htype : typeRejected allowed f.fileType = false)
    (hsize : f.fileSize > maxFileSize) :
    clientValidate allowed maxFileSize f =
      some ("File too large (max " ++
        toString ((maxFileSize + 524288) / 1048576) ++ "MB)") := by
  have hmb : jsRoundDiv maxFileSize (1024 * 1024) = (maxFileSize + 524288) / 1048576 := by
    unfold jsRoundDiv
    omega
  simp [clientValidate, htype, hsize, tooLargeMessage, hmb]

/-- C4 amended, witness at a concrete oversized request. -/
theorem c4_too_large_rounded_witness :
    clientValidate (.list ["audio/mpeg"]) 1048576 ⟨"b.mp3", "audio/mpeg", 2000000⟩ =
      some ("File too large (max " ++ toString ((1048576 + 524288) / 1048576) ++ "MB)") :=
  c4_too_large_rounded (.list ["audio/mpeg"]) 1048576 ⟨"b.mp3", "audio/mpeg", 2000000⟩
    (by decide) (by decide)

/-- C5: every issued credential's condition list contains the
content-length range `[0, maxSizeBytes]`, contains the
`starts-with($Content-Type, "audio/")` condition exactly when the declared
type begins with `audio/`, and contains nothing else. -/
theorem c5_policy_conditions (fileType fileName : String) (maxFileSize : Nat)
    (uuid : String) (c : S3Condition) :
    c ∈ (createPresignedUploadUrl fileType fileName maxFileSize uuid).conditions ↔
      (c = .contentLengthRange 0 maxFileSize ∨
        (c = .startsWithField "$Content-Type" "audio/" ∧
          fileType.startsWith "audio/" = true)) := by
  unfold createPresignedUploadUrl
  by_cases h : fileType.startsWith "audio/" <;> simp [h]

/-- C6: a request whose fileType is outside a non-wildcard allowed set, or
whose fileSize exceeds the limit, draws a 400 from both revisions of the
upload handler, and neither reaches the credential-signing call. -/
theorem c6_invalid_rejected_before_signing (b : UploadBody)
    (allowed : AllowedTypes) (maxFileSize : Nat) (hasS3Client : Bool)
    (signer : SignerOutcome)
    (h : (∃ ts, allowed = .list ts ∧ b.fileType ∉ ts) ∨ b.fileSize > maxFileSize) :
    ((UploadRouteV2.handleUpload (some b) ⟨allowed, maxFileSize⟩ signer).1.status = 400 ∧
      (UploadRouteV2.handleUpload (some b) ⟨allowed, maxFileSize⟩ signer).2 = false) ∧
    ((UploadRouteV1.handleUpload (some b) ⟨allowed, maxFileSize, hasS3Client⟩ signer).1.status = 400 ∧
      (UploadRouteV1.handleUpload (some b) ⟨allowed, maxFileSize, hasS3Client⟩ signer).2 = false) := by
  by_cases hm : (b.fileName == "" || b.fileType == "" || b.fileSize == 0) = true
  · simp [UploadRouteV1.handleUpload, UploadRouteV2.handleUpload, hm, UploadResult.status]
  · rcases h with ⟨ts, hts, hmem⟩ | hsize
    · have h2 : typeRejected allowed b.fileType = true := by
        simp [hts, typeRejected, hmem]
      have h1 : allowed.jsIncludes b.fileType = false := by
        simp [hts, AllowedTypes.jsIncludes, hmem]
      simp [UploadRouteV1.handleUpload, UploadRouteV2.handleUpload, hm, h1, h2,
        UploadResult.status]
    · constructor
      · by_cases h2 : typeRejected allowed b.fileType = true <;>
          simp [UploadRouteV2.handleUpload, hm, h2, hsize, UploadResult.status]
      · by_cases h1 : allowed.jsIncludes b.fileType = true <;>
          simp [UploadRouteV1.handleUpload, hm, h1, hsize, UploadResult.status]

/-- C6 witness at a concrete disallowed-type request. -/
theorem c6_invalid_rejected_before_signing_witness :
    ((UploadRouteV2.handleUpload (some ⟨"notes.txt", "text/plain", 10⟩)
        ⟨.list ["audio/mpeg"], 100⟩ (.ok ⟨"https://bucket.example", [], "k"⟩)).1.status = 400 ∧
      (UploadRouteV2.handleUpload (some ⟨"notes.txt", "text/plain", 10⟩)
        ⟨.list ["audio/mpeg"], 100⟩ (.ok ⟨"https://bucket.example", [], "k"⟩)).2 = false) ∧
    ((UploadRouteV1.handleUpload (some ⟨"notes.txt", "text/plain", 10⟩)
        ⟨.list ["audio/mpeg"], 100, true⟩ (.ok ⟨"https://bucket.example", [], "k"⟩)).1.status = 400 ∧
      (UploadRouteV1.handleUpload (some ⟨"notes.txt", "text/plain", 10⟩)
        ⟨.list ["audio/mpeg"], 100, true⟩ (.ok ⟨"https://bucket.example", [], "k"⟩)).2 = false) :=
  c6_invalid_rejected_before_signing ⟨"notes.txt", "text/plain", 10⟩
    (.list ["audio/mpeg"]) 100 true (.ok ⟨"https://bucket.example", [], "k"⟩)
    (Or.inl ⟨["audio/mpeg"], rfl, by decide⟩)

/-- C7: the transfer promise resolves exactly on a load event with status
204, and every other outcome — any other status, or a transport-level
error event — rejects with the transfer error. -/
theorem c7_transfer_resolves_iff_204 (o : XhrOutcome) :
    (uploadToS3 o = .resolved ↔ o = .loaded 204) ∧
    (o ≠ .loaded 204 → uploadToS3 o = .rejectedTransferError "Upload failed") := by
  cases o with
  | loaded status => by_cases h : status = 204 <;> simp [uploadToS3, h]
  | networkError => simp [uploadToS3]

/-- C7 witness at the transport-failure outcome. -/
theorem c7_transfer_resolves_iff_204_witness :
    (uploadToS3 .networkError = .resolved ↔ XhrOutcome.networkError = .loaded 204) ∧
    uploadToS3 .networkError = .rejectedTransferError "Upload failed" :=
  ⟨(c7_transfer_resolves_iff_204 .networkError).1,
   (c7_transfer_resolves_iff_204 .networkError).2 (by decide)⟩

/-- C8: invoking `uploadFile` while `isUploading` is set is a no-op — the
state is unchanged and no effect (in particular no network request) is
emitted, so at most one upload is in flight per hook instance. -/
theorem c8_single_flight (f : UploadBody) (allowed : AllowedTypes)
    (maxFileSize : Nat) (s : HookState) (h : s.isUploading = true) :
    uploadFile f allowed maxFileSize s = (s, []) := by
  simp [uploadFile, h]

/-- C8 witness at a concrete in-flight state. -/
theorem c8_single_flight_witness :
    uploadFile ⟨"two.mp3", "audio/mpeg", 7⟩ .wildcard 5242880 ⟨true, true, 1⟩ =
      (⟨true, true, 1⟩, []) :=
  c8_single_flight ⟨"two.mp3", "audio/mpeg", 7⟩ .wildcard 5242880 ⟨true, true, 1⟩ rfl

/-- C9: the claim fails on the code. With a non-empty key and the storage
client present, a successful fetch of an object with zero bytes produces a
200 response carrying an empty buffer, not a 404: `getFileByS3Key` always
returns a real `Buffer` object, which is truthy even when empty, so the
`if (!buffer)` 404 guard never fires on this path. -/
theorem c9_empty_fetch_returns_200 :
    handleDownload (some ⟨"uploads/u/a.mp3"⟩) true (.response true "OK" none []) =
      .success [] 0 none ∧
    (handleDownload (some ⟨"uploads/u/a.mp3"⟩) true (.response true "OK" none [])).status =
      200 := by
  decide

/-- C10: a request whose fileSize is 0, or whose fileName or fileType is
the empty string, is rejected 400 "Missing required fields" by both
revisions of the upload handler — the required-field check treats every
falsy value, the number 0 included, as absent. -/
theorem c10_zero_size_missing_fields (b : UploadBody) (allowed : AllowedTypes)
    (maxFileSize : Nat) (hasS3Client : Bool) (signer : SignerOutcome)
    (h : b.fileSize = 0 ∨ b.fileName = "" ∨ b.fileType = "") :
    UploadRouteV2.handleUpload (some b) ⟨allowed, maxFileSize⟩ signer =
      (.failure 400 "Missing required fields", false) ∧
    UploadRouteV1.handleUpload (some b) ⟨allowed, maxFileSize, hasS3Client⟩ signer =
      (.failure 400 "Missing required fields", false) := by
  have hm : (b.fileName == "" || b.fileType == "" || b.fileSize == 0) = true := by
    rcases h with h | h | h <;> simp [h]
  constructor <;> simp [UploadRouteV1.handleUpload, UploadRouteV2.handleUpload, hm]

/-- C10 witness: a zero-size request with both fields present. -/
theorem c10_zero_size_missing_fields_witness :
    UploadRouteV2.handleUpload (some ⟨"voice.mp3", "audio/mpeg", 0⟩)
      ⟨.list ["audio/mpeg"], 5242880⟩ (.ok ⟨"https://bucket.example", [], "kk"⟩) =
      (.failure 400 "Missing required fields", false) ∧
    UploadRouteV1.handleUpload (some ⟨"voice.mp3", "audio/mpeg", 0⟩)
      ⟨.list ["audio/mpeg"], 5242880, true⟩ (.ok ⟨"https://bucket.example", [], "kk"⟩) =
      (.failure 400 "Missing required fields", false) :=
  c10_zero_size_missing_fields ⟨"voice.mp3", "audio/mpeg", 0⟩ (.list ["audio/mpeg"])
    5242880 true (.ok ⟨"https://bucket.example", [], "kk"⟩) (Or.inl rfl)
